import Mathlib

/-!
Verification of the antd-overlay overlay lifecycle manager, the global
placeholder registry and the two surface adapters, shallowly embedded
from the TypeScript source (src/useOverlay.tsx, src/useModal.tsx,
src/useDrawer.tsx, src/AntdOverlayContext.tsx).
-/

namespace AntdOverlay

/-!
## Overlay lifecycle state machine (src/useOverlay.tsx)

The hook keeps three pieces of state:
  `open` (here `openState`, since `open` is a Lean keyword),
  `renderEnable` (the spec's `mountState`), and
  `props` (the most recently stored property bag, `undefined` before the
  first opener call, hence an `Option`).
-/

/-- State of one overlay lifecycle instance, `P` is the property-bag type. -/
structure OverlayState (P : Type) where
  openState : Bool
  renderEnable : Bool
  props : Option P
deriving DecidableEq, Repr

/-- Initial state: `useState(false)`, `useState(false)`, `useState<...>()`. -/
def initState {P : Type} : OverlayState P :=
  { openState := false, renderEnable := false, props := none }

/-- `handleClose` (useOverlay.tsx lines 333-341): with animation enabled it
only sets `open` to false; with animation disabled it only sets
`renderEnable` to false. -/
def handleClose {P : Type} (animated : Bool) (s : OverlayState P) : OverlayState P :=
  if animated then
    { s with openState := false }
  else
    { s with renderEnable := false }

/-- `handleAnimationEnd` (useOverlay.tsx lines 349-353): with animation
enabled it sets `renderEnable` to false, otherwise it does nothing. -/
def handleAnimationEnd {P : Type} (animated : Bool) (s : OverlayState P) : OverlayState P :=
  if animated then
    { s with renderEnable := false }
  else
    s

/-- `openOverlay` (useOverlay.tsx lines 396-419): sets `renderEnable := true`,
`open := true` and stores the (optional) initial properties. -/
def openOverlay {P : Type} (initializeProps : Option P) (s : OverlayState P) : OverlayState P :=
  { s with renderEnable := true, openState := true, props := initializeProps }

/-- The controller's `update` (useOverlay.tsx line 411): `setProps(newProps)`,
a wholesale replacement of the stored property bag. -/
def update {P : Type} (newProps : P) (s : OverlayState P) : OverlayState P :=
  { s with props := some newProps }

/-- The four operations a lifecycle instance transitions through. -/
inductive OverlayOp (P : Type) where
  | openOv (initializeProps : Option P)
  | update (newProps : P)
  | requestClose
  | notifyAnimationDone
deriving DecidableEq, Repr

/-- One transition of the lifecycle state machine. -/
def step {P : Type} (animated : Bool) (s : OverlayState P) : OverlayOp P → OverlayState P
  | .openOv p => openOverlay p s
  | .update p => update p s
  | .requestClose => handleClose animated s
  | .notifyAnimationDone => handleAnimationEnd animated s

/-- Run a sequence of operations from a state. -/
def run {P : Type} (animated : Bool) (s : OverlayState P) (ops : List (OverlayOp P)) :
    OverlayState P :=
  ops.foldl (step animated) s

/-- `animDoneGuarded animated s ops` holds when every `notifyAnimationDone`
in `ops` is issued at a point where the current state has `openState = false`
(the adapter contract: the completion signal is only forwarded for a
closing transition). -/
def animDoneGuarded {P : Type} (animated : Bool) (s : OverlayState P) :
    List (OverlayOp P) → Bool
  | [] => true
  | .notifyAnimationDone :: rest =>
      !s.openState && animDoneGuarded animated (step animated s .notifyAnimationDone) rest
  | op :: rest => animDoneGuarded animated (step animated s op) rest

/-- Helper: with animation enabled, no operation other than
`notifyAnimationDone` can take `renderEnable` from true to false. -/
theorem renderEnable_stable_without_animDone {P : Type} (ops : List (OverlayOp P))
    (s : OverlayState P) (hs : s.renderEnable = true)
    (hops : OverlayOp.notifyAnimationDone ∉ ops) :
    (run true s ops).renderEnable = true := by
  induction ops generalizing s with
  | nil => simpa [run] using hs
  | cons op rest ih =>
    have hop : op ≠ OverlayOp.notifyAnimationDone := by
      intro h
      exact hops (by simp [h])
    have hrest : OverlayOp.notifyAnimationDone ∉ rest := by
      intro h
      exact hops (List.mem_cons_of_mem _ h)
    have hstep : (step true s op).renderEnable = true := by
      cases op with
      | openOv p => simp [step, openOverlay]
      | update p => simpa [step, update] using hs
      | requestClose => simpa [step, handleClose] using hs
      | notifyAnimationDone => exact absurd rfl hop
    simpa [run] using ih (step true s op) hstep hrest

/-- Helper: with animation enabled, the invariant
`renderEnable = false → openState = false` is preserved along any run whose
`notifyAnimationDone` calls are all issued while `openState = false`. -/
theorem mount_implies_open_inv {P : Type} (ops : List (OverlayOp P)) (s : OverlayState P)
    (hinv : s.renderEnable = false → s.openState = false)
    (hg : animDoneGuarded true s ops = true) :
    (run true s ops).renderEnable = false → (run true s ops).openState = false := by
  induction ops generalizing s with
  | nil => simpa [run] using hinv
  | cons op rest ih =>
    have hstep : (step true s op).renderEnable = false → (step true s op).openState = false := by
      cases op with
      | openOv p => simp [step, openOverlay]
      | update p =>
        intro h
        exact hinv (by simpa [step, update] using h)
      | requestClose => simp [step, handleClose]
      | notifyAnimationDone =>
        intro _
        have : !s.openState = true := by
          by_contra hcontra
          simp [animDoneGuarded, hcontra] at hg
          rcases hg with ⟨h1, _⟩
          simp [h1] at hcontra
        simpa [step, handleAnimationEnd] using (by simpa using this)
    have hgrest : animDoneGuarded true (step true s op) rest = true := by
      cases op with
      | openOv p => simpa [animDoneGuarded] using hg
      | update p => simpa [animDoneGuarded] using hg
      | requestClose => simpa [animDoneGuarded] using hg
      | notifyAnimationDone =>
        have := hg
        simp [animDoneGuarded] at this
        exact this.2
    simpa [run] using ih (step true s op) hstep hgrest

/-!
## Global placeholder registry (src/AntdOverlayContext.tsx)

`AntdOverlayProvider` keeps an ordered list `holders`; `addHolder` appends
with `setHolders((prev) => [...prev, holder])`, `removeHolder` filters by
identity, and the provider renders `children` followed by `holders`.
Placeholder nodes are modelled by an arbitrary type `α` with decidable
identity.
-/

/-- `addHolder` (AntdOverlayContext lines 150-152): append to the end. -/
def addHolder {α : Type} (prev : List α) (holder : α) : List α :=
  prev ++ [holder]

/-- `removeHolder` (AntdOverlayContext lines 160-162): identity-based filter. -/
def removeHolder {α : Type} [DecidableEq α] (prev : List α) (holder : α) : List α :=
  prev.filter (fun h => h != holder)

/-- The render output of `AntdOverlayProvider` (lines 171-177): the children
first, then every registered holder, in registration order. -/
def providerRender {α : Type} (children : List α) (holders : List α) : List α :=
  children ++ holders

/-!
## useGlobalOverlay (src/useOverlay.tsx lines 467-495)

The hook first reads the context; when it is null it throws
(`throw new Error(...)`) before `useOverlay` creates any lifecycle state and
before the effect registers the holder. Modelled as an `Except` returning
the updated global environment only on the success path.
-/

/-- The tree-wide state touched by `useGlobalOverlay`: the registry's holder
list and the lifecycle instances created so far. -/
structure GlobalEnv (P : Type) (α : Type) where
  holders : List α
  lifecycles : List (OverlayState P)
deriving Repr

/-- `useGlobalOverlay`: when no `AntdOverlayProvider` context is present it
throws the descriptive error before creating a lifecycle or registering a
holder; otherwise it creates a fresh lifecycle via `useOverlay` and registers
the context holder with `addHolder`. -/
def useGlobalOverlay {P : Type} {α : Type} (context : Bool) (env : GlobalEnv P α)
    (contextHolder : α) : Except String (GlobalEnv P α) :=
  if context then
    Except.ok
      { holders := addHolder env.holders contextHolder
        lifecycles := env.lifecycles ++ [initState] }
  else
    Except.error
      ("useGlobalOverlay must be used within an AntdOverlayProvider. " ++
        "Please wrap your application with <AntdOverlayProvider>.")

/-!
## Surface adapters (src/useOverlay.tsx, src/useModal.tsx, src/useDrawer.tsx)

Callbacks are modelled as trace producers: invoking a callback yields the
list of observable events it emits. The lifecycle's `onClose` and
`onAnimationEnd` callbacks and the caller-supplied `customOk`,
`afterClose` and `afterOpenChange` callbacks are all values of (functions
into) `List Ev`. A JS property that may be absent is an `Option`; object
spread is field-wise `Option` preference for the later spread.
-/

/-- Observable callback events used to instrument the adapters. -/
inductive Ev where
  | callerOk (value : Nat)
  | closeReq
  | animDone
  | callerAfterClose
  | callerAfterOpenChange (nowOpen : Bool)
deriving DecidableEq, Repr

/-- The internal-state record the lifecycle hands to a props adapter
(useOverlay.tsx lines 370-374): `open`, `onClose`, `onAnimationEnd`. -/
structure AdapterState where
  openFlag : Bool
  onClose : List Ev
  onAnimationEnd : List Ev

/-- Caller-supplied property bag for the generic overlay (the fields the
default adapter reads). -/
structure OverlayCallerProps where
  customOk : Option (Nat → List Ev) := none

/-- The concrete property bag produced by the default adapter. -/
structure OverlayResultProps where
  openProp : Bool
  customClose : List Ev
  customOk : Option (Nat → List Ev)

/-- `defaultPropsAdapter` (useOverlay.tsx lines 204-224): spread the caller
props, inject `open` and `customClose`, and when a `customOk` is present
wrap it so that it first runs the original callback and then `onClose`. -/
def defaultPropsAdapter (props : Option OverlayCallerProps) (state : AdapterState) :
    OverlayResultProps :=
  let base : OverlayResultProps :=
    { openProp := state.openFlag
      customClose := state.onClose
      customOk := props.bind (fun p => p.customOk) }
  match base.customOk with
  | some originalCustomOk =>
      { base with customOk := some (fun value => originalCustomOk value ++ state.onClose) }
  | none => base

/-- Caller-supplied (or tree-default) property bag for the Modal adapter. -/
structure ModalPropsBag where
  maskClosable : Option Bool := none
  afterClose : Option (List Ev) := none
  customOk : Option (Nat → List Ev) := none

/-- The concrete property bag produced by the Modal adapter. -/
structure ModalResultProps where
  maskClosable : Option Bool
  openProp : Bool
  customClose : List Ev
  afterClose : List Ev
  customOk : Option (Nat → List Ev)

/-- `createModalPropsAdapter` (useModal.tsx lines 79-109): spread
`defaultProps` then `props` (caller wins field-wise), inject `open` and
`customClose`, replace `afterClose` with a wrapper that runs the caller's
`afterClose` (if any) and then `onAnimationEnd` unconditionally, and wrap a
present `customOk` to also run `onClose`. No `maskClosable` default is set
by this adapter. -/
def createModalPropsAdapter (defaultProps : Option ModalPropsBag)
    (props : Option ModalPropsBag) (state : AdapterState) : ModalResultProps :=
  let base : ModalResultProps :=
    { maskClosable :=
        (props.bind (fun p => p.maskClosable)) <|> (defaultProps.bind (fun p => p.maskClosable))
      openProp := state.openFlag
      customClose := state.onClose
      afterClose := ((props.bind (fun p => p.afterClose)).getD []) ++ state.onAnimationEnd
      customOk :=
        (props.bind (fun p => p.customOk)) <|> (defaultProps.bind (fun p => p.customOk)) }
  match base.customOk with
  | some originalCustomOk =>
      { base with customOk := some (fun value => originalCustomOk value ++ state.onClose) }
  | none => base

/-- Caller-supplied property bag for the Drawer adapter. -/
structure DrawerPropsBag where
  maskClosable : Option Bool := none
  afterOpenChange : Option (Bool → List Ev) := none
  customOk : Option (Nat → List Ev) := none

/-- The concrete property bag produced by the Drawer adapter. `maskClosable`
is always present (the adapter writes a literal `false` before spreading the
caller props). -/
structure DrawerResultProps where
  maskClosable : Bool
  openProp : Bool
  customClose : List Ev
  afterOpenChange : Bool → List Ev
  customOk : Option (Nat → List Ev)

/-- `createDrawerPropsAdapter` (useDrawer.tsx lines 82-113): set
`maskClosable: false` then spread the caller props (so a caller value wins),
inject `open` and `customClose`, replace `afterOpenChange` with a wrapper
that runs the caller's callback with the flag and then `onAnimationEnd` only
when the flag is false, and wrap a present `customOk` to also run
`onClose`. -/
def createDrawerPropsAdapter (props : Option DrawerPropsBag) (state : AdapterState) :
    DrawerResultProps :=
  let base : DrawerResultProps :=
    { maskClosable := (props.bind (fun p => p.maskClosable)).getD false
      openProp := state.openFlag
      customClose := state.onClose
      afterOpenChange := fun nowOpen =>
        ((props.bind (fun p => p.afterOpenChange)).map (fun f => f nowOpen)).getD [] ++
          (if nowOpen then [] else state.onAnimationEnd)
      customOk := props.bind (fun p => p.customOk) }
  match base.customOk with
  | some originalCustomOk =>
      { base with customOk := some (fun value => originalCustomOk value ++ state.onClose) }
  | none => base

/-!
## Claims
-/

/-- A concrete mounted-and-open lifecycle state used by witnesses. -/
def sampleOpenState : OverlayState Unit :=
  { openState := true, renderEnable := true, props := none }

/-- A concrete in-flight animated-close state (open already false, still
mounted) used by witnesses. -/
def sampleClosingState : OverlayState Unit :=
  { openState := false, renderEnable := true, props := none }

/-- Property bags as association lists for the update claims. -/
abbrev Bag := List (String × Nat)

/-- Claim C1: with animation enabled, closing is two-phase: from every
mounted-and-open lifecycle state, `handleClose` yields `openState = false`
and `renderEnable = true` (the spec's `mountState`) in the same transition;
`renderEnable` stays true along any subsequent operations that do not
include `notifyAnimationDone`; and `handleAnimationEnd` then sets
`renderEnable = false`. -/
theorem animated_close_two_phase {P : Type} (s : OverlayState P)
    (h1 : s.renderEnable = true) (h2 : s.openState = true) :
    (handleClose true s).openState = false ∧
    (handleClose true s).renderEnable = true ∧
    (∀ ops : List (OverlayOp P), OverlayOp.notifyAnimationDone ∉ ops →
      (run true (handleClose true s) ops).renderEnable = true) ∧
    (handleAnimationEnd true (handleClose true s)).renderEnable = false := by
  refine ⟨by simp [handleClose], by simpa [handleClose] using h1, ?_,
    by simp [handleAnimationEnd]⟩
  intro ops hops
  exact renderEnable_stable_without_animDone ops _ (by simpa [handleClose] using h1) hops

/-- Witness for C1 at a concrete mounted-and-open state. -/
theorem animated_close_two_phase_w :
    sampleOpenState.renderEnable = true ∧ sampleOpenState.openState = true ∧
    (handleClose true sampleOpenState).openState = false ∧
    (handleAnimationEnd true (handleClose true sampleOpenState)).renderEnable = false :=
  ⟨rfl, rfl, (animated_close_two_phase sampleOpenState rfl rfl).1,
    (animated_close_two_phase sampleOpenState rfl rfl).2.2.2⟩

/-- Claim C2 counterexample: with animation disabled, `handleClose` on a
mounted-and-open state does NOT set both `renderEnable = false` and
`openState = false` in the same transition: `openState` stays true. -/
theorem nonAnimated_close_counterexample :
    ¬ ((handleClose false sampleOpenState).renderEnable = false ∧
       (handleClose false sampleOpenState).openState = false) := by
  decide

/-- Claim C2 (amended): with animation disabled, closing is one-phase on the
mount flag: from every mounted-and-open state, `handleClose` sets
`renderEnable = false` in the same synchronous transition with no dependency
on the completion signal (a subsequent `handleAnimationEnd` is a no-op), but
it leaves `openState` unchanged rather than setting it to false. -/
theorem nonAnimated_close_one_phase {P : Type} (s : OverlayState P)
    (h1 : s.renderEnable = true) (h2 : s.openState = true) :
    (handleClose false s).renderEnable = false ∧
    (handleClose false s).openState = s.openState ∧
    handleAnimationEnd false (handleClose false s) = handleClose false s := by
  exact ⟨by simp [handleClose], by simp [handleClose], by simp [handleAnimationEnd]⟩

/-- Witness for the amended C2 at a concrete mounted-and-open state. -/
theorem nonAnimated_close_one_phase_w :
    sampleOpenState.renderEnable = true ∧ sampleOpenState.openState = true ∧
    (handleClose false sampleOpenState).renderEnable = false :=
  ⟨rfl, rfl, (nonAnimated_close_one_phase sampleOpenState rfl rfl).1⟩

/-- Claim C3 counterexample: the invariant `mountState = false →
openState = false` fails on reachable states: with animation disabled the
trace open-then-requestClose reaches `renderEnable = false, openState = true`,
and with animation enabled the trace open-then-notifyAnimationDone (a
spurious completion signal during the opening phase) reaches the same
violating shape. -/
theorem mount_implies_closed_counterexample :
    ((run false (initState (P := Unit))
        [OverlayOp.openOv none, OverlayOp.requestClose]).renderEnable = false ∧
     (run false (initState (P := Unit))
        [OverlayOp.openOv none, OverlayOp.requestClose]).openState = true) ∧
    ((run true (initState (P := Unit))
        [OverlayOp.openOv none, OverlayOp.notifyAnimationDone]).renderEnable = false ∧
     (run true (initState (P := Unit))
        [OverlayOp.openOv none, OverlayOp.notifyAnimationDone]).openState = true) := by
  decide

/-- Claim C3 (amended): with animation enabled and every
`notifyAnimationDone` issued only while `openState = false` (the adapter
contract for closing-completion signals), every state reachable from the
initial state satisfies `renderEnable = false → openState = false`. -/
theorem mount_implies_closed_inv {P : Type} (ops : List (OverlayOp P))
    (hg : animDoneGuarded true (initState (P := P)) ops = true)
    (hm : (run true (initState (P := P)) ops).renderEnable = false) :
    (run true (initState (P := P)) ops).openState = false :=
  mount_implies_open_inv ops initState (fun _ => rfl) hg hm

/-- Witness for the amended C3: a full animated open-close-unmount trace. -/
theorem mount_implies_closed_inv_w :
    animDoneGuarded true (initState (P := Unit))
      [OverlayOp.openOv none, OverlayOp.requestClose, OverlayOp.notifyAnimationDone] = true ∧
    (run true (initState (P := Unit))
      [OverlayOp.openOv none, OverlayOp.requestClose,
        OverlayOp.notifyAnimationDone]).openState = false :=
  ⟨by decide, mount_implies_closed_inv
    [OverlayOp.openOv none, OverlayOp.requestClose, OverlayOp.notifyAnimationDone]
    (by decide) (by decide)⟩

/-- Claim C4: the controller's `update` replaces the stored property bag
wholesale: from every open session, `update {a:1}` then `update {b:2}`
leaves the stored bag exactly `{b:2}`, the replacement law holds for all
bags, and key `a` is not retained. -/
theorem update_replaces_wholesale (s : OverlayState Bag)
    (h1 : s.renderEnable = true) (h2 : s.openState = true) :
    (update [("b", 2)] (update [("a", 1)] s)).props = some [("b", 2)] ∧
    (∀ p1 p2 : Bag, (update p2 (update p1 s)).props = some p2) ∧
    List.lookup "a" [(("b" : String), 2)] = none := by
  exact ⟨rfl, fun p1 p2 => rfl, by decide⟩

/-- Witness for C4 at a concrete open session. -/
theorem update_replaces_wholesale_w :
    ({ openState := true, renderEnable := true, props := none } : OverlayState Bag).openState
        = true ∧
    (update [("b", 2)]
      (update [("a", 1)]
        ({ openState := true, renderEnable := true, props := none } : OverlayState Bag))).props
      = some [("b", 2)] :=
  ⟨rfl, (update_replaces_wholesale
      { openState := true, renderEnable := true, props := none } rfl rfl).1⟩

/-- Claim C10: calling the opener while an animated close is in flight
(`openState = false`, `renderEnable = true`) unconditionally starts a fresh
session: `renderEnable = true`, `openState = true`, and the stored
properties are exactly the new call's arguments, without waiting for any
completion signal. -/
theorem reopen_cancels_pending_close {P : Type} (s : OverlayState P) (p : Option P)
    (h1 : s.renderEnable = true) (h2 : s.openState = false) :
    (openOverlay p s).renderEnable = true ∧
    (openOverlay p s).openState = true ∧
    (openOverlay p s).props = p :=
  ⟨rfl, rfl, rfl⟩

/-- Witness for C10 at a concrete in-flight-close state. -/
theorem reopen_cancels_pending_close_w :
    sampleClosingState.renderEnable = true ∧ sampleClosingState.openState = false ∧
    (openOverlay (some ()) sampleClosingState).openState = true :=
  ⟨rfl, rfl, (reopen_cancels_pending_close sampleClosingState (some ()) rfl rfl).2.1⟩

/-- Claim C5: for every value, invoking the adapter-wrapped confirm
callback forwards the value to the instrumented original callback exactly
once and triggers requestClose exactly once, under the default adapter, the
Modal adapter and the Drawer adapter: the emitted trace is exactly one
caller-forward event followed by exactly one close-request event. -/
theorem confirm_auto_closes (state : AdapterState) (hclose : state.onClose = [Ev.closeReq])
    (v : Nat) (defaultProps : Option ModalPropsBag) (mc : Option Bool)
    (ac : Option (List Ev)) (mcD : Option Bool) (aocD : Option (Bool → List Ev)) :
    ((defaultPropsAdapter (some { customOk := some fun x => [Ev.callerOk x] }) state).customOk.map
        (fun w => (w v, (w v).count (Ev.callerOk v), (w v).count Ev.closeReq)) =
      some ([Ev.callerOk v, Ev.closeReq], 1, 1)) ∧
    ((createModalPropsAdapter defaultProps
        (some { maskClosable := mc, afterClose := ac,
                customOk := some fun x => [Ev.callerOk x] }) state).customOk.map
        (fun w => (w v, (w v).count (Ev.callerOk v), (w v).count Ev.closeReq)) =
      some ([Ev.callerOk v, Ev.closeReq], 1, 1)) ∧
    ((createDrawerPropsAdapter
        (some { maskClosable := mcD, afterOpenChange := aocD,
                customOk := some fun x => [Ev.callerOk x] }) state).customOk.map
        (fun w => (w v, (w v).count (Ev.callerOk v), (w v).count Ev.closeReq)) =
      some ([Ev.callerOk v, Ev.closeReq], 1, 1)) := by
  refine ⟨?_, ?_, ?_⟩ <;>
    simp [defaultPropsAdapter, createModalPropsAdapter, createDrawerPropsAdapter,
      hclose, List.count_cons]

/-- Witness for C5 at a concrete adapter state and value. -/
theorem confirm_auto_closes_w :
    ({ openFlag := true, onClose := [Ev.closeReq],
       onAnimationEnd := [Ev.animDone] } : AdapterState).onClose = [Ev.closeReq] ∧
    ((defaultPropsAdapter (some { customOk := some fun x => [Ev.callerOk x] })
        { openFlag := true, onClose := [Ev.closeReq],
          onAnimationEnd := [Ev.animDone] }).customOk.map
        (fun w => (w 7, (w 7).count (Ev.callerOk 7), (w 7).count Ev.closeReq)) =
      some ([Ev.callerOk 7, Ev.closeReq], 1, 1)) :=
  ⟨rfl, (confirm_auto_closes
      { openFlag := true, onClose := [Ev.closeReq], onAnimationEnd := [Ev.animDone] }
      rfl 7 none none none none none).1⟩

/-- Claim C6 counterexample: the Modal adapter does NOT default
`maskClosable` to false: with no caller value and no tree-level default the
resulting property is absent (`none`), not `some false`. -/
theorem modal_maskClosable_counterexample :
    (createModalPropsAdapter none none
      { openFlag := true, onClose := [], onAnimationEnd := [] }).maskClosable ≠
      some false := by
  decide

/-- Claim C6 (amended): the Drawer adapter defaults `maskClosable` to false
and a caller-supplied value overrides the default; the Modal adapter sets no
such default — it leaves the property absent unless the caller (or the
tree-level defaultModalProps) supplies one, with the caller value winning. -/
theorem maskClosable_defaults (state : AdapterState) (b : Bool)
    (aoc : Option (Bool → List Ev)) (okD : Option (Nat → List Ev))
    (ac : Option (List Ev)) (okM : Option (Nat → List Ev)) (d : Option ModalPropsBag) :
    (createDrawerPropsAdapter none state).maskClosable = false ∧
    (createDrawerPropsAdapter
      (some { maskClosable := none, afterOpenChange := aoc, customOk := okD })
      state).maskClosable = false ∧
    (createDrawerPropsAdapter
      (some { maskClosable := some b, afterOpenChange := aoc, customOk := okD })
      state).maskClosable = b ∧
    (createModalPropsAdapter none none state).maskClosable = none ∧
    (createModalPropsAdapter d
      (some { maskClosable := some b, afterClose := ac, customOk := okM })
      state).maskClosable = some b := by
  refine ⟨?_, ?_, ?_, ?_, ?_⟩
  · simp [createDrawerPropsAdapter]
  · cases okD <;> simp [createDrawerPropsAdapter]
  · cases okD <;> simp [createDrawerPropsAdapter]
  · simp [createModalPropsAdapter]
  · rcases d with _ | ⟨dm, da, dk⟩
    · cases okM <;> simp [createModalPropsAdapter]
    · cases okM <;> cases dk <;> simp [createModalPropsAdapter]

/-- Claim C7: the Drawer adapter forwards the combined completion signal
(`afterOpenChange`, fired with a boolean "now open" flag) to
`onAnimationEnd` only when the flag is false, while the Modal adapter
forwards its close-only signal (`afterClose`) to `onAnimationEnd`
unconditionally; both first run the caller's own callback. -/
theorem animDone_forwarding (state : AdapterState)
    (hanim : state.onAnimationEnd = [Ev.animDone])
    (mcD : Option Bool) (okD : Option (Nat → List Ev))
    (mcM : Option Bool) (okM : Option (Nat → List Ev)) (d : Option ModalPropsBag) :
    (∀ nowOpen : Bool,
      (createDrawerPropsAdapter
          (some { maskClosable := mcD,
                  afterOpenChange := some fun f => [Ev.callerAfterOpenChange f],
                  customOk := okD }) state).afterOpenChange nowOpen =
        [Ev.callerAfterOpenChange nowOpen] ++ (if nowOpen then [] else [Ev.animDone])) ∧
    ((createModalPropsAdapter d
        (some { maskClosable := mcM, afterClose := some [Ev.callerAfterClose],
                customOk := okM }) state).afterClose =
      [Ev.callerAfterClose, Ev.animDone]) := by
  constructor
  · intro nowOpen
    cases okD <;> simp [createDrawerPropsAdapter, hanim]
  · rcases d with _ | ⟨dm, da, dk⟩
    · cases okM <;> simp [createModalPropsAdapter, hanim]
    · cases okM <;> cases dk <;> simp [createModalPropsAdapter, hanim]

/-- Witness for C7 at a concrete adapter state: the drawer signal with flag
true emits no completion, with flag false it emits exactly one. -/
theorem animDone_forwarding_w :
    ({ openFlag := false, onClose := [Ev.closeReq],
       onAnimationEnd := [Ev.animDone] } : AdapterState).onAnimationEnd = [Ev.animDone] ∧
    ((createDrawerPropsAdapter
        (some { maskClosable := none,
                afterOpenChange := some fun f => [Ev.callerAfterOpenChange f],
                customOk := none })
        { openFlag := false, onClose := [Ev.closeReq],
          onAnimationEnd := [Ev.animDone] }).afterOpenChange false =
      [Ev.callerAfterOpenChange false] ++ [Ev.animDone]) :=
  ⟨rfl, (animDone_forwarding
      { openFlag := false, onClose := [Ev.closeReq], onAnimationEnd := [Ev.animDone] }
      rfl none none none none none).1 false⟩

/-- Claim C8: using `useGlobalOverlay` with no enclosing
`AntdOverlayProvider` throws the descriptive error and never produces an
updated environment: no lifecycle is created and no holder is registered. -/
theorem missing_provider_fails_fast {P : Type} {α : Type} (env : GlobalEnv P α) (h : α) :
    useGlobalOverlay false env h =
      Except.error
        ("useGlobalOverlay must be used within an AntdOverlayProvider. " ++
          "Please wrap your application with <AntdOverlayProvider>.") ∧
    ∀ env2 : GlobalEnv P α, useGlobalOverlay false env h ≠ Except.ok env2 := by
  exact ⟨rfl, fun env2 hcontra => by simp [useGlobalOverlay] at hcontra⟩

/-- Claim C9: registry order equals paint order: registering placeholders
P1, P2, P3 in that order and rendering the boundary yields the children
followed by P1, P2, P3 in registration order; in general `addHolder` appends
to the end, so the most recently registered placeholder is rendered last. -/
theorem registry_order_is_paint_order {α : Type} (children : List α) (p1 p2 p3 : α) :
    providerRender children (addHolder (addHolder (addHolder ([] : List α) p1) p2) p3) =
      children ++ [p1, p2, p3] ∧
    (∀ (prev : List α) (h : α),
      providerRender children (addHolder prev h) = children ++ prev ++ [h]) := by
  constructor
  · simp [providerRender, addHolder]
  · intro prev h
    simp [providerRender, addHolder]

end AntdOverlay
